import Mathlib

/-!
Shallow embedding of `reagent/workflow/model_managers/actor_critic_base.py`
(the ReAgent actor-critic model-manager orchestration layer) and proofs of
the specification claims about it.

External collaborators (the identification capability, the metric resolver,
the train-and-evaluate driver) are modelled as explicit parameters; calls
issued to the identification capability and the driver are recorded as
explicit call records so that ordering claims ("before any identification
call") are statable.
-/

namespace ReAgent

/-- A table spec is opaque to this layer: it is only passed through to the
identification capability. -/
structure TableSpec where
  table_name : String
deriving DecidableEq, Repr

/-- Modelled from the spec: `InputColumn` gives the fixed input-column
selectors used when calling the identification capability; the constants
live in `reagent/preprocessing/types.py`, which is not part of the sources
here. -/
def InputColumn.STATE_FEATURES : String := "state_features"

/-- Modelled from the spec: the action input-column selector. -/
def InputColumn.ACTION : String := "action"

/-- Modelled from the spec: `NormalizationKey` is the enumeration
{STATE, ACTION} identifying which NormalizationData a consumer needs; the
constants live in `reagent/parameters.py`, not part of the sources here. -/
def NormalizationKey.STATE : String := "state"

/-- Modelled from the spec: the ACTION member of the key enumeration. -/
def NormalizationKey.ACTION : String := "action"

/-- One float-feature descriptor of a feature configuration. -/
structure FloatFeatureInfo where
  name : String
  feature_id : Int
deriving DecidableEq, Repr

/-- A structured feature configuration: an ordered list of float-feature
descriptors. -/
structure ModelFeatureConfig where
  float_feature_infos : List FloatFeatureInfo
deriving DecidableEq, Repr

/-- Modelled from the spec: the FeatureConfig Resolver
(`get_feature_config` in `reagent/preprocessing/normalization.py`, not part
of the sources here) turns an optional list of (feature-id, feature-name)
pairs into a structured feature configuration, an absent list meaning the
empty one; order is preserved and nothing is deduplicated. -/
def get_feature_config (float_features : Option (List (Int × String))) :
    ModelFeatureConfig :=
  { float_feature_infos :=
      (float_features.getD []).map (fun p => { name := p.2, feature_id := p.1 }) }

/-- Per-feature normalization parameters are opaque to this layer: the
identification capability produces them and the preprocessors consume
them. -/
structure NormalizationParameter where
  feature_type : String
deriving DecidableEq, Repr

/-- The mapping feature-id to normalization parameters returned by one
identification call, as an association list. -/
abbrev NormalizationParams := List (Int × NormalizationParameter)

/-- `NormalizationData` owns the dense per-feature parameters of one
feature space. -/
structure NormalizationData where
  dense_normalization_parameters : NormalizationParams
deriving DecidableEq, Repr

/-- Preprocessing options, with the two recognized fields this layer
touches: an optional whitelist of feature ids and an optional mapping
feature-id to override transform name (`_replace` becomes a functional
update). -/
structure PreprocessingOptions where
  whitelist_features : Option (List Int) := none
  feature_overrides : Option (List (Int × String)) := none
deriving DecidableEq, Repr

instance : Inhabited PreprocessingOptions := ⟨{}⟩

/-- Modelled from the spec: the net-builder capability exposes
`default_action_preprocessing`, a named transform used as the fallback
action override (`actor_net_builder.value.default_action_preprocessing`;
the builder registry is not part of the sources here). -/
structure NetBuilder where
  default_action_preprocessing : String
deriving DecidableEq, Repr

/-- Reader options are opaque to this layer and only passed through to the
driver. -/
structure ReaderOptions where
  minibatch_size : Nat
deriving DecidableEq, Repr

/-- Evaluation parameters; this layer reads only `calc_cpe_in_training`. -/
structure EvaluationParameters where
  calc_cpe_in_training : Bool := true
deriving DecidableEq, Repr

instance : Inhabited EvaluationParameters := ⟨{}⟩

/-- Reward options: an optional custom reward expression and the optional
metric name to reward-value mapping consumed by the metric resolver. -/
structure RewardOptions where
  custom_reward_expression : Option String := none
  metric_reward_values : Option (List (String × Rat)) := none
deriving DecidableEq, Repr

/-- Reinforcement-learning parameters; this layer reads only `gamma`. -/
structure RLParameters where
  gamma : Rat
deriving DecidableEq, Repr

/-- The reporter instantiated by `train`; its accumulation behaviour is
external, so it is opaque here. -/
structure ActorCriticReporter where
deriving DecidableEq, Repr

/-- The trainer, opaque except for its observer-registration capability. -/
structure Trainer where
  observers : List ActorCriticReporter := []
deriving DecidableEq, Repr

/-- `trainer.add_observer(reporter)` appends the reporter to the trainer's
observer list. -/
def Trainer.add_observer (t : Trainer) (r : ActorCriticReporter) : Trainer :=
  { t with observers := t.observers ++ [r] }

/-- The evaluator as wired by `train`: no fixed action names, the discount
factor from the manager's RL parameters, a reference to the trainer, and
the resolved metrics-to-score; plus its observer list. -/
structure Evaluator where
  action_names : Option (List String)
  gamma : Rat
  model : Trainer
  metrics_to_score : List String
  observers : List ActorCriticReporter := []
deriving DecidableEq, Repr

/-- `evaluator.add_observer(reporter)` appends the reporter to the
evaluator's observer list. -/
def Evaluator.add_observer (e : Evaluator) (r : ActorCriticReporter) : Evaluator :=
  { e with observers := e.observers ++ [r] }

/-- A dataset is an opaque pass-through token. -/
structure Dataset where
  parquet_url : String
deriving DecidableEq, Repr

/-- Record of a single call issued to the identification capability:
`identify_normalization_parameters(table_spec, column, options)`. -/
structure IdentCall where
  table_spec : TableSpec
  column : String
  options : PreprocessingOptions
deriving DecidableEq, Repr

/-- The identification capability: an external collaborator mapping
(table spec, input column, options) to per-feature normalization
parameters. -/
abbrev IdentCapability := TableSpec → String → PreprocessingOptions → NormalizationParams

/-- The metric resolver capability (`get_metrics_to_score` in
`reagent/evaluation/evaluator.py`, external to this layer). -/
abbrev MetricResolver := Option (List (String × Rat)) → List String

/-- The `ActorCriticBase` manager. The declared dataclass fields come
first; the underscore fields are the attributes installed by
`__post_init_post_parse__` and by the reward-options attachment of the
`ModelManager` base (the base class is not part of the sources here, so
`_reward_options`, `use_gpu`, `trainer`, `rl_parameters` and the two
normalization-data accessors are carried as plain fields, modelled from
the spec). -/
structure ActorCriticBase where
  state_preprocessing_options : Option PreprocessingOptions := none
  action_preprocessing_options : Option PreprocessingOptions := none
  action_feature_override : Option String := none
  state_float_features : Option (List (Int × String)) := none
  action_float_features : List (Int × String) := []
  reader_options : Option ReaderOptions := none
  eval_parameters : EvaluationParameters := {}
  actor_net_builder : NetBuilder
  use_gpu : Bool := false
  trainer : Trainer := {}
  rl_parameters : RLParameters
  state_normalization_data : Option NormalizationData := none
  action_normalization_data : Option NormalizationData := none
  _state_preprocessing_options : Option PreprocessingOptions := none
  _action_preprocessing_options : Option PreprocessingOptions := none
  _metrics_to_score : Option (List String) := none
  _reward_options : Option RewardOptions := none
deriving DecidableEq, Repr

namespace ActorCriticBase

/-- `__post_init_post_parse__`: validates that no whitelist was
pre-supplied on either preprocessing options, then copies the options into
the underscore fields and clears the metrics cache. A failed `assert`
becomes an `Except.error` carrying the assertion message. -/
def post_init_post_parse (m : ActorCriticBase) : Except String ActorCriticBase :=
  if !(match m.state_preprocessing_options with
      | none => true
      | some o => o.whitelist_features.isNone) then
    .error ("Please set state whitelist features in state_float_features field of " ++
      "config instead")
  else if !(match m.action_preprocessing_options with
      | none => true
      | some o => o.whitelist_features.isNone) then
    .error ("Please set action whitelist features in action_float_features field of " ++
      "config instead")
  else
    .ok { m with
      _state_preprocessing_options := m.state_preprocessing_options,
      _action_preprocessing_options := m.action_preprocessing_options,
      _metrics_to_score := none }

/-- `should_generate_eval_dataset` property. -/
def should_generate_eval_dataset (m : ActorCriticBase) : Bool :=
  m.eval_parameters.calc_cpe_in_training

/-- `state_feature_config` property. -/
def state_feature_config (m : ActorCriticBase) : ModelFeatureConfig :=
  get_feature_config m.state_float_features

/-- `action_feature_config` property: asserts the action float features
are non-empty, then resolves the configuration. -/
def action_feature_config (m : ActorCriticBase) : Except String ModelFeatureConfig :=
  if m.action_float_features.length > 0 then
    .ok (get_feature_config (some m.action_float_features))
  else
    .error "You must set action_float_features"

/-- `run_feature_identification(input_table_spec)`, instrumented with the
list of calls issued to the identification capability (in order) so that
"before any identification call" claims are statable. Mirrors the source
step by step: resolve state options, overwrite the state whitelist from
the state feature config, call identify on the state column; then resolve
action options, derive the action feature ids (assertion on a non-empty
config fires here), resolve the override by precedence, assert no
pre-populated feature overrides, overwrite whitelist and broadcast
overrides, call identify on the action column; return the map keyed by
STATE and ACTION. -/
def run_feature_identification (identify : IdentCapability) (m : ActorCriticBase)
    (input_table_spec : TableSpec) :
    List IdentCall × Except String (List (String × NormalizationData)) :=
  let state_preprocessing_options0 := m._state_preprocessing_options.getD {}
  let state_features :=
    m.state_feature_config.float_feature_infos.map (fun ffi => ffi.feature_id)
  let state_preprocessing_options :=
    { state_preprocessing_options0 with whitelist_features := some state_features }
  let stateCall : IdentCall :=
    { table_spec := input_table_spec, column := InputColumn.STATE_FEATURES,
      options := state_preprocessing_options }
  let state_normalization_parameters :=
    identify input_table_spec InputColumn.STATE_FEATURES state_preprocessing_options
  let action_preprocessing_options0 := m._action_preprocessing_options.getD {}
  match m.action_feature_config with
  | .error e => ([stateCall], .error e)
  | .ok action_config =>
    let action_features := action_config.float_feature_infos.map (fun ffi => ffi.feature_id)
    let default_override := m.actor_net_builder.default_action_preprocessing
    let action_feature_override :=
      match m.action_feature_override with
      | some o => o
      | none => default_override
    if action_preprocessing_options0.feature_overrides.isSome then
      ([stateCall], .error "assert action_preprocessing_options.feature_overrides is None")
    else
      let action_preprocessing_options :=
        { action_preprocessing_options0 with
          whitelist_features := some action_features,
          feature_overrides :=
            some (action_features.map (fun fid => (fid, action_feature_override))) }
      let actionCall : IdentCall :=
        { table_spec := input_table_spec, column := InputColumn.ACTION,
          options := action_preprocessing_options }
      let action_normalization_parameters :=
        identify input_table_spec InputColumn.ACTION action_preprocessing_options
      ([stateCall, actionCall],
        .ok [(NormalizationKey.STATE,
               { dense_normalization_parameters := state_normalization_parameters }),
             (NormalizationKey.ACTION,
               { dense_normalization_parameters := action_normalization_parameters })])

/-- `required_normalization_keys` property. -/
def required_normalization_keys (_ : ActorCriticBase) : List String :=
  [NormalizationKey.STATE, NormalizationKey.ACTION]

/-- `metrics_to_score` property: asserts reward options are attached; on a
cold cache invokes the resolver on the reward options' metric-reward-value
mapping and stores the result; returns the cached value thereafter. The
result carries the possibly-updated manager and the number of resolver
invocations performed by this access. -/
def metrics_to_score (resolver : MetricResolver) (m : ActorCriticBase) :
    Except String (List String × ActorCriticBase × Nat) :=
  match m._reward_options with
  | none => .error "assert self._reward_options is not None"
  | some ro =>
    match m._metrics_to_score with
    | some v => .ok (v, m, 0)
    | none =>
      let v := resolver ro.metric_reward_values
      .ok (v, { m with _metrics_to_score := some v }, 1)

end ActorCriticBase

/-- An observation passed to the policy; its tensor content is opaque. -/
structure FeatureData where
  float_features : List Rat
deriving DecidableEq, Repr

/-- The actor network's output: an action payload together with the
gradient-tracking flag and device that `detach().cpu()` clears. -/
structure ActorOutput where
  action : List Rat
  requires_grad : Bool := false
  device : String := "cpu"
deriving DecidableEq, Repr

/-- `output.detach().cpu()`: drop gradient tracking and move to host. -/
def ActorOutput.detach_cpu (o : ActorOutput) : ActorOutput :=
  { o with requires_grad := false, device := "cpu" }

/-- The actor network as this layer sees it: a training-mode flag (the
`torch.nn.Module.training` attribute) and a forward function which may
observe the current mode. -/
structure ActorNetwork where
  training : Bool
  forward : Bool → FeatureData → ActorOutput

/-- `module.eval()`: clear the training flag. -/
def ActorNetwork.eval (n : ActorNetwork) : ActorNetwork :=
  { n with training := false }

/-- `module.train()`: set the training flag. -/
def ActorNetwork.train (n : ActorNetwork) : ActorNetwork :=
  { n with training := true }

/-- `ActorPolicyWrapper.act(obs)`: switch the network to eval mode, run
the forward pass (under `torch.no_grad()`, which has no observable
counterpart in this embedding), switch it back to train mode, and return
the detached host-side output together with the network as left by the
call. -/
def ActorPolicyWrapper.act (n : ActorNetwork) (obs : FeatureData) :
    ActorOutput × ActorNetwork :=
  let n1 := n.eval
  let output := n1.forward n1.training obs
  let n2 := n1.train
  (output.detach_cpu, n2)

/-- One per-feature-space preprocessor, capturing its normalization
parameters and the device-affinity flag. -/
structure Preprocessor where
  normalization_parameters : NormalizationParams
  use_gpu : Bool
deriving DecidableEq, Repr

/-- The composed policy-network batch preprocessor built by
`build_batch_preprocessor`. -/
structure PolicyNetworkBatchPreprocessor where
  state_preprocessor : Preprocessor
  action_preprocessor : Preprocessor
  use_gpu : Bool
deriving DecidableEq, Repr

namespace ActorCriticBase

/-- `build_batch_preprocessor`: requires the state and action
normalization data to exist (the accessors live in the `ModelManager`
base, not part of the sources here, and assert presence — modelled from
the spec), then builds one preprocessor per feature space and composes
them. -/
def build_batch_preprocessor (m : ActorCriticBase) :
    Except String PolicyNetworkBatchPreprocessor :=
  match m.state_normalization_data, m.action_normalization_data with
  | some s, some a =>
    .ok { state_preprocessor :=
            { normalization_parameters := s.dense_normalization_parameters,
              use_gpu := m.use_gpu },
          action_preprocessor :=
            { normalization_parameters := a.dense_normalization_parameters,
              use_gpu := m.use_gpu },
          use_gpu := m.use_gpu }
  | _, _ => .error "normalization data is not set"

end ActorCriticBase

/-- Record of the single call `train` issues to the external
`train_and_evaluate_generic` driver, with every argument the source passes. -/
structure DriverCall where
  train_dataset : Dataset
  eval_dataset : Option Dataset
  trainer : Trainer
  num_epochs : Nat
  use_gpu : Bool
  batch_preprocessor : PolicyNetworkBatchPreprocessor
  reporter : ActorCriticReporter
  evaluator : Evaluator
  reader_options : Option ReaderOptions
deriving DecidableEq, Repr

namespace ActorCriticBase

/-- `train(train_dataset, eval_dataset, num_epochs, reader_options)`:
instantiate a reporter and register it on the trainer, build the evaluator
from the resolved metrics-to-score (a property access that may fail and
may fill the cache) and register the reporter on it too, build the batch
preprocessor, and invoke the driver. The result is the recorded driver
call together with the manager as left by the property access; the
training-report packaging after the driver returns is external and not
modelled. -/
def train (resolver : MetricResolver) (m : ActorCriticBase)
    (train_dataset : Dataset) (eval_dataset : Option Dataset)
    (num_epochs : Nat) (reader_options : ReaderOptions) :
    Except String (DriverCall × ActorCriticBase) :=
  let _ := reader_options
  let reporter : ActorCriticReporter := {}
  let trainer1 := m.trainer.add_observer reporter
  match m.metrics_to_score resolver with
  | .error e => .error e
  | .ok (mts, m1, _) =>
    let evaluator : Evaluator :=
      { action_names := none, gamma := m.rl_parameters.gamma,
        model := trainer1, metrics_to_score := mts }
    let evaluator := evaluator.add_observer reporter
    match m1.build_batch_preprocessor with
    | .error e => .error e
    | .ok batch_preprocessor =>
      .ok ({ train_dataset := train_dataset, eval_dataset := eval_dataset,
             trainer := trainer1, num_epochs := num_epochs,
             use_gpu := m1.use_gpu, batch_preprocessor := batch_preprocessor,
             reporter := reporter, evaluator := evaluator,
             reader_options := m1.reader_options }, m1)

end ActorCriticBase

/-! ## Concrete fixtures used by witnesses and counterexamples -/

/-- A net builder whose default action preprocessing is the transform "O2". -/
def nb0 : NetBuilder := { default_action_preprocessing := "O2" }

/-- Concrete RL parameters. -/
def rl0 : RLParameters := { gamma := 9 / 10 }

/-- A concrete table spec. -/
def ts0 : TableSpec := { table_name := "logged_experience" }

/-- A concrete identification capability: one continuous parameter per
whitelisted feature (so an empty whitelist yields an empty map). -/
def ident0 : IdentCapability := fun _ _ opts =>
  (opts.whitelist_features.getD []).map
    (fun fid => (fid, { feature_type := "CONTINUOUS" }))

/-- A concrete manager with three state features and two action features,
as constructed after post-init. -/
def m0 : ActorCriticBase :=
  { actor_net_builder := nb0, rl_parameters := rl0,
    state_float_features := some [(10, "s1"), (11, "s2"), (12, "s3")],
    action_float_features := [(1, "a1"), (2, "a2")] }

/-- A concrete manager with an explicit action feature override "O1"
competing with the net-builder default "O2". -/
def m1 : ActorCriticBase :=
  { m0 with action_feature_override := some "O1" }

/-- A concrete manager with an empty action feature configuration. -/
def mEmptyAct : ActorCriticBase :=
  { actor_net_builder := nb0, rl_parameters := rl0,
    state_float_features := some [(10, "s1")] }

/-- A concrete manager whose action preprocessing options arrive with
pre-populated feature overrides. -/
def mPreOvr : ActorCriticBase :=
  { m0 with
    action_preprocessing_options := some { feature_overrides := some [(1, "X")] },
    _action_preprocessing_options := some { feature_overrides := some [(1, "X")] } }

/-- A concrete manager whose state preprocessing options arrive with a
pre-set whitelist. -/
def mPreWl : ActorCriticBase :=
  { m0 with state_preprocessing_options := some { whitelist_features := some [10] } }

/-- A concrete manager with no state float features at all. -/
def mNoState : ActorCriticBase :=
  { actor_net_builder := nb0, rl_parameters := rl0,
    action_float_features := [(1, "a1"), (2, "a2")] }

/-- Concrete reward options with two scored metrics. -/
def ro0 : RewardOptions :=
  { metric_reward_values := some [("m_a", 1), ("m_b", 2)] }

/-- A concrete metric resolver: the metric names of the mapping. -/
def resolver0 : MetricResolver := fun mrv => (mrv.getD []).map Prod.fst

/-- A concrete manager ready for `metrics_to_score`: reward options
attached, cache cold. -/
def mRw : ActorCriticBase := { m0 with _reward_options := some ro0 }

/-- A concrete manager ready for `train`: reward options attached and both
normalization-data slots filled. -/
def mTrain : ActorCriticBase :=
  { m0 with
    _reward_options := some ro0,
    reader_options := some { minibatch_size := 512 },
    state_normalization_data :=
      some { dense_normalization_parameters := [(10, { feature_type := "CONTINUOUS" })] },
    action_normalization_data :=
      some { dense_normalization_parameters := [(1, { feature_type := "CONTINUOUS" })] } }

/-- Concrete datasets and reader options for the train fixtures. -/
def td0 : Dataset := { parquet_url := "hdfs://train" }

/-- A first reader-options argument for `train`. -/
def roA : ReaderOptions := { minibatch_size := 64 }

/-- A second, different reader-options argument for `train`. -/
def roB : ReaderOptions := { minibatch_size := 4096 }

/-- A concrete actor network starting in evaluation mode. -/
def net0 : ActorNetwork :=
  { training := false, forward := fun _ _ => { action := [1] } }

/-- A concrete actor network starting in training mode. -/
def net1 : ActorNetwork :=
  { training := true, forward := fun _ _ => { action := [1] } }

/-- A concrete observation. -/
def obs0 : FeatureData := { float_features := [0] }

/-! ## Claims -/

/-- C1: whenever `run_feature_identification` accepts its input (non-empty
action feature configuration, no pre-populated action feature overrides),
the returned mapping has exactly the keys STATE and ACTION in that order,
each bound to a `NormalizationData`, and this key list equals
`required_normalization_keys`. -/
theorem run_feature_identification_keys (identify : IdentCapability)
    (m : ActorCriticBase) (ts : TableSpec)
    (hact : m.action_float_features ≠ [])
    (hov : (m._action_preprocessing_options.getD {}).feature_overrides = none) :
    ∃ r : List (String × NormalizationData),
      (m.run_feature_identification identify ts).2 = .ok r ∧
      r.map Prod.fst = m.required_normalization_keys := by
  have hlen : 0 < m.action_float_features.length := List.length_pos.mpr hact
  simp only [ActorCriticBase.run_feature_identification,
    ActorCriticBase.action_feature_config, hlen, if_pos, hov, Option.isSome_none,
    Bool.false_eq_true, if_false]
  exact ⟨_, rfl, rfl⟩

/-- Witness for C1 at a concrete manager, identification capability and
table spec. -/
theorem run_feature_identification_keys_witness :
    m0.action_float_features ≠ [] ∧
    (m0._action_preprocessing_options.getD {}).feature_overrides = none ∧
    ∃ r : List (String × NormalizationData),
      (m0.run_feature_identification ident0 ts0).2 = .ok r ∧
      r.map Prod.fst = m0.required_normalization_keys :=
  ⟨by decide, rfl, run_feature_identification_keys ident0 m0 ts0 (by decide) rfl⟩

/-- C2: under the same acceptance conditions, the identification call for
the action column carries feature overrides that map each feature-id of
the action feature configuration, in order, to the single resolved
override: the manager's explicit `action_feature_override` when set,
otherwise the net builder's `default_action_preprocessing`. -/
theorem run_feature_identification_override_precedence (identify : IdentCapability)
    (m : ActorCriticBase) (ts : TableSpec)
    (hact : m.action_float_features ≠ [])
    (hov : (m._action_preprocessing_options.getD {}).feature_overrides = none) :
    ∃ sc ac : IdentCall,
      (m.run_feature_identification identify ts).1 = [sc, ac] ∧
      ac.column = InputColumn.ACTION ∧
      ac.options.feature_overrides = some
        (((get_feature_config (some m.action_float_features)).float_feature_infos.map
            (fun ffi => ffi.feature_id)).map
          (fun fid =>
            (fid, m.action_feature_override.getD
              m.actor_net_builder.default_action_preprocessing))) := by
  have hlen : 0 < m.action_float_features.length := List.length_pos.mpr hact
  simp only [ActorCriticBase.run_feature_identification,
    ActorCriticBase.action_feature_config, hlen, if_pos, hov, Option.isSome_none,
    Bool.false_eq_true, if_false]
  refine ⟨_, _, rfl, rfl, ?_⟩
  cases m.action_feature_override <;> rfl

/-- Witness for C2: explicit override "O1" beats the net-builder default
"O2" and is broadcast to both action feature-ids. -/
theorem run_feature_identification_override_precedence_witness :
    m1.action_float_features ≠ [] ∧
    (m1._action_preprocessing_options.getD {}).feature_overrides = none ∧
    ∃ sc ac : IdentCall,
      (m1.run_feature_identification ident0 ts0).1 = [sc, ac] ∧
      ac.column = InputColumn.ACTION ∧
      ac.options.feature_overrides = some
        (((get_feature_config (some m1.action_float_features)).float_feature_infos.map
            (fun ffi => ffi.feature_id)).map
          (fun fid =>
            (fid, m1.action_feature_override.getD
              m1.actor_net_builder.default_action_preprocessing))) :=
  ⟨by decide, rfl,
    run_feature_identification_override_precedence ident0 m1 ts0 (by decide) rfl⟩

/-- C3 counterexample: on a network starting in evaluation mode, `act`
does not leave the mode flag as found — the network comes back in
training mode. -/
theorem act_mode_counterexample :
    ((ActorPolicyWrapper.act net0 obs0).2).training ≠ net0.training := by
  decide

/-- C3 amended: `act` always leaves the network in training mode after the
call, whatever the starting mode — so the flag is preserved exactly when
the network started in training mode, and a network starting in evaluation
mode is left in training mode. -/
theorem act_leaves_network_in_train_mode (n : ActorNetwork) (obs : FeatureData) :
    ((ActorPolicyWrapper.act n obs).2).training = true := rfl

/-- C4 counterexample: with an empty action feature configuration the
precondition failure does not come before every identification call — at
this concrete input the state identification call has already been issued
when the failure surfaces. -/
theorem empty_action_features_counterexample :
    (mEmptyAct.run_feature_identification ident0 ts0).2 =
      .error "You must set action_float_features" ∧
    (mEmptyAct.run_feature_identification ident0 ts0).1.map IdentCall.column =
      [InputColumn.STATE_FEATURES] := ⟨rfl, rfl⟩

/-- C4 amended: with an empty action feature configuration,
`run_feature_identification` fails with the precondition failure before
the action identification call is issued, but after the state
identification call has already been issued (exactly one call, on the
state column, precedes the failure). -/
theorem empty_action_features_fail (identify : IdentCapability)
    (m : ActorCriticBase) (ts : TableSpec)
    (hempty : m.action_float_features = []) :
    (m.run_feature_identification identify ts).2 =
      .error "You must set action_float_features" ∧
    ∃ sc : IdentCall,
      (m.run_feature_identification identify ts).1 = [sc] ∧
      sc.column = InputColumn.STATE_FEATURES := by
  simp only [ActorCriticBase.run_feature_identification,
    ActorCriticBase.action_feature_config, hempty, List.length_nil, lt_irrefl,
    if_false]
  exact ⟨trivial, _, rfl, rfl⟩

/-- Witness for the amended C4 at a concrete manager. -/
theorem empty_action_features_fail_witness :
    mEmptyAct.action_float_features = [] ∧
    ((mEmptyAct.run_feature_identification ident0 ts0).2 =
       .error "You must set action_float_features" ∧
     ∃ sc : IdentCall,
       (mEmptyAct.run_feature_identification ident0 ts0).1 = [sc] ∧
       sc.column = InputColumn.STATE_FEATURES) :=
  ⟨rfl, empty_action_features_fail ident0 mEmptyAct ts0 rfl⟩

/-- C5 counterexample: with pre-populated action feature overrides, the
configuration error does not surface before every identification call —
at this concrete input the state identification call has already been
issued when the assertion fails. -/
theorem prepopulated_overrides_counterexample :
    (mPreOvr.run_feature_identification ident0 ts0).2 =
      .error "assert action_preprocessing_options.feature_overrides is None" ∧
    (mPreOvr.run_feature_identification ident0 ts0).1.map IdentCall.column =
      [InputColumn.STATE_FEATURES] := ⟨rfl, rfl⟩

/-- C5 amended: pre-populated `feature_overrides` on the action
preprocessing options is rejected as a configuration error before the
action identification call is issued, but after the state identification
call has already been issued (exactly one call, on the state column,
precedes the failure). -/
theorem prepopulated_overrides_fail (identify : IdentCapability)
    (m : ActorCriticBase) (ts : TableSpec)
    (hact : m.action_float_features ≠ [])
    (hov : (m._action_preprocessing_options.getD {}).feature_overrides.isSome = true) :
    (m.run_feature_identification identify ts).2 =
      .error "assert action_preprocessing_options.feature_overrides is None" ∧
    ∃ sc : IdentCall,
      (m.run_feature_identification identify ts).1 = [sc] ∧
      sc.column = InputColumn.STATE_FEATURES := by
  have hlen : 0 < m.action_float_features.length := List.length_pos.mpr hact
  simp only [ActorCriticBase.run_feature_identification,
    ActorCriticBase.action_feature_config, hlen, if_pos, hov, if_true]
  exact ⟨trivial, _, rfl, rfl⟩

/-- Witness for the amended C5 at a concrete manager. -/
theorem prepopulated_overrides_fail_witness :
    mPreOvr.action_float_features ≠ [] ∧
    (mPreOvr._action_preprocessing_options.getD {}).feature_overrides.isSome = true ∧
    ((mPreOvr.run_feature_identification ident0 ts0).2 =
       .error "assert action_preprocessing_options.feature_overrides is None" ∧
     ∃ sc : IdentCall,
       (mPreOvr.run_feature_identification ident0 ts0).1 = [sc] ∧
       sc.column = InputColumn.STATE_FEATURES) :=
  ⟨by decide, rfl, prepopulated_overrides_fail ident0 mPreOvr ts0 (by decide) rfl⟩

/-- C6: a manager whose state or action preprocessing options arrive with
a pre-set whitelist fails validation at construction time, and (for any
manager) every call `run_feature_identification` issues to the
identification capability carries a whitelist re-derived from the feature
configurations, never a caller-supplied one. -/
theorem whitelist_preset_rejected (m : ActorCriticBase)
    (h : (∃ o, m.state_preprocessing_options = some o ∧
            o.whitelist_features.isSome = true) ∨
         (∃ o, m.action_preprocessing_options = some o ∧
            o.whitelist_features.isSome = true)) :
    (∃ e, m.post_init_post_parse = .error e) ∧
    ∀ (identify : IdentCapability) (ts : TableSpec),
      ∀ c ∈ (m.run_feature_identification identify ts).1,
        c.options.whitelist_features =
            some (m.state_feature_config.float_feature_infos.map
              (fun ffi => ffi.feature_id)) ∨
        c.options.whitelist_features =
            some ((get_feature_config (some m.action_float_features)).float_feature_infos.map
              (fun ffi => ffi.feature_id)) := by
  constructor
  · unfold ActorCriticBase.post_init_post_parse
    split
    · exact ⟨_, rfl⟩
    · split
      · exact ⟨_, rfl⟩
      · exfalso
        rename_i h1 h2
        rcases h with ⟨o, ho, hwl⟩ | ⟨o, ho, hwl⟩
        · rcases Option.isSome_iff_exists.mp hwl with ⟨w, hw⟩
          exact h1 (by simp [ho, hw])
        · rcases Option.isSome_iff_exists.mp hwl with ⟨w, hw⟩
          exact h2 (by simp [ho, hw])
  · intro identify ts c hc
    by_cases hl : 0 < m.action_float_features.length
    · by_cases hfo :
        (m._action_preprocessing_options.getD {}).feature_overrides.isSome = true
      · simp only [ActorCriticBase.run_feature_identification,
          ActorCriticBase.action_feature_config, hl, if_pos, hfo, if_true,
          List.mem_singleton] at hc
        subst hc
        left
        rfl
      · rw [Bool.not_eq_true] at hfo
        simp only [ActorCriticBase.run_feature_identification,
          ActorCriticBase.action_feature_config, hl, if_pos, hfo,
          Bool.false_eq_true, if_false, List.mem_cons, List.not_mem_nil,
          or_false] at hc
        rcases hc with hc | hc
        · subst hc
          left
          rfl
        · subst hc
          right
          rfl
    · simp only [ActorCriticBase.run_feature_identification,
        ActorCriticBase.action_feature_config, hl, if_neg, if_false,
        List.mem_singleton] at hc
      subst hc
      left
      rfl

/-- Witness for C6: construction fails on a concrete manager with a
pre-set state whitelist. -/
theorem whitelist_preset_rejected_witness :
    ∃ e, mPreWl.post_init_post_parse = .error e :=
  (whitelist_preset_rejected mPreWl
    (Or.inl ⟨{ whitelist_features := some [10] }, rfl, rfl⟩)).1

/-- C7: accessing `metrics_to_score` before reward options are attached is
a precondition failure; with reward options attached and a cold cache, the
first access invokes the resolver exactly once on the reward options'
metric-reward-value mapping and caches the result, and the next access on
the resulting manager returns the identical cached value with zero
resolver invocations. -/
theorem metrics_to_score_lazy_cached (resolver : MetricResolver)
    (m : ActorCriticBase) (ro : RewardOptions)
    (hro : m._reward_options = some ro)
    (hcold : m._metrics_to_score = none) :
    (∀ mx : ActorCriticBase, mx._reward_options = none →
        mx.metrics_to_score resolver =
          .error "assert self._reward_options is not None") ∧
    ∃ mc : ActorCriticBase,
      m.metrics_to_score resolver =
        .ok (resolver ro.metric_reward_values, mc, 1) ∧
      mc._metrics_to_score = some (resolver ro.metric_reward_values) ∧
      mc.metrics_to_score resolver =
        .ok (resolver ro.metric_reward_values, mc, 0) := by
  constructor
  · intro mx hx
    unfold ActorCriticBase.metrics_to_score
    rw [hx]
  · refine ⟨{ m with _metrics_to_score := some (resolver ro.metric_reward_values) },
      ?_, rfl, ?_⟩
    · unfold ActorCriticBase.metrics_to_score
      rw [hro, hcold]
    · unfold ActorCriticBase.metrics_to_score
      show (match m._reward_options with
        | none => Except.error "assert self._reward_options is not None"
        | some _ => _) = _
      rw [hro]

/-- Witness for C7 at a concrete manager and resolver. -/
theorem metrics_to_score_lazy_cached_witness :
    mRw._reward_options = some ro0 ∧
    mRw._metrics_to_score = none ∧
    ∃ mc : ActorCriticBase,
      mRw.metrics_to_score resolver0 =
        .ok (resolver0 ro0.metric_reward_values, mc, 1) ∧
      mc._metrics_to_score = some (resolver0 ro0.metric_reward_values) ∧
      mc.metrics_to_score resolver0 =
        .ok (resolver0 ro0.metric_reward_values, mc, 0) :=
  ⟨rfl, rfl, (metrics_to_score_lazy_cached resolver0 mRw ro0 rfl rfl).2⟩

/-- C8: an empty state feature configuration is accepted:
`run_feature_identification` issues a state identification call whose
whitelist is empty and, when the identification capability answers an
empty whitelist with an empty map, returns a STATE entry with an empty
normalization map alongside the normally produced ACTION entry. -/
theorem empty_state_config_valid (identify : IdentCapability)
    (m : ActorCriticBase) (ts : TableSpec)
    (hstate : m.state_float_features = none ∨ m.state_float_features = some [])
    (hact : m.action_float_features ≠ [])
    (hov : (m._action_preprocessing_options.getD {}).feature_overrides = none)
    (hid : ∀ col opts, opts.whitelist_features = some ([] : List Int) →
        identify ts col opts = []) :
    ∃ (sc ac : IdentCall) (ad : NormalizationData),
      (m.run_feature_identification identify ts).1 = [sc, ac] ∧
      sc.options.whitelist_features = some [] ∧
      (m.run_feature_identification identify ts).2 =
        .ok [(NormalizationKey.STATE, { dense_normalization_parameters := [] }),
             (NormalizationKey.ACTION, ad)] := by
  have hlen : 0 < m.action_float_features.length := List.length_pos.mpr hact
  have hsf : m.state_feature_config.float_feature_infos = [] := by
    rcases hstate with h | h <;>
      simp [ActorCriticBase.state_feature_config, get_feature_config, h]
  have hstid : identify ts InputColumn.STATE_FEATURES
      { m._state_preprocessing_options.getD {} with
        whitelist_features := some [] } = [] := hid _ _ rfl
  simp only [ActorCriticBase.run_feature_identification,
    ActorCriticBase.action_feature_config, hlen, if_pos, hov, Option.isSome_none,
    Bool.false_eq_true, if_false, hsf, List.map_nil, hstid]
  exact ⟨_, _, _, rfl, rfl, rfl⟩

/-- Witness for C8 at a concrete state-less manager and a capability that
answers an empty whitelist with an empty map. -/
theorem empty_state_config_valid_witness :
    ∃ (sc ac : IdentCall) (ad : NormalizationData),
      (mNoState.run_feature_identification ident0 ts0).1 = [sc, ac] ∧
      sc.options.whitelist_features = some [] ∧
      (mNoState.run_feature_identification ident0 ts0).2 =
        .ok [(NormalizationKey.STATE, { dense_normalization_parameters := [] }),
             (NormalizationKey.ACTION, ad)] :=
  empty_state_config_valid ident0 mNoState ts0 (Or.inl rfl) (by decide) rfl
    (fun col opts h => by simp [ident0, h])

/-- Helper: a successful `metrics_to_score` access only fills the metrics
cache, so every other field of the manager is left unchanged. -/
theorem metrics_to_score_preserves (resolver : MetricResolver)
    (m mc : ActorCriticBase) (v : List String) (k : Nat)
    (h : m.metrics_to_score resolver = .ok (v, mc, k)) :
    mc.reader_options = m.reader_options ∧
    mc.state_normalization_data = m.state_normalization_data ∧
    mc.action_normalization_data = m.action_normalization_data ∧
    mc.use_gpu = m.use_gpu := by
  unfold ActorCriticBase.metrics_to_score at h
  cases hro : m._reward_options with
  | none =>
    rw [hro] at h
    exact Except.noConfusion h
  | some ro =>
    rw [hro] at h
    cases hc : m._metrics_to_score with
    | some w =>
      rw [hc] at h
      simp only [Except.ok.injEq, Prod.mk.injEq] at h
      rw [← h.2.1]
      exact ⟨rfl, rfl, rfl, rfl⟩
    | none =>
      rw [hc] at h
      simp only [Except.ok.injEq, Prod.mk.injEq] at h
      rw [← h.2.1]
      exact ⟨rfl, rfl, rfl, rfl⟩

/-- C9: whenever `train` reaches the driver (reward options attached,
normalization data present), it invokes the driver exactly once with the
`eval_dataset` argument passed through unchanged — in particular an
absent eval dataset is handed to the driver as absent, not skipped or
substituted. -/
theorem train_passes_eval_dataset_through (resolver : MetricResolver)
    (m : ActorCriticBase) (td : Dataset) (ed : Option Dataset)
    (n : Nat) (ro : ReaderOptions) (rw0 : RewardOptions)
    (sd ad : NormalizationData)
    (hro : m._reward_options = some rw0)
    (hsd : m.state_normalization_data = some sd)
    (had : m.action_normalization_data = some ad) :
    ∃ (dc : DriverCall) (mc : ActorCriticBase),
      m.train resolver td ed n ro = .ok (dc, mc) ∧
      dc.eval_dataset = ed := by
  cases hc : m._metrics_to_score with
  | some w =>
    simp only [ActorCriticBase.train, ActorCriticBase.metrics_to_score, hro, hc,
      ActorCriticBase.build_batch_preprocessor, hsd, had]
    exact ⟨_, _, rfl, rfl⟩
  | none =>
    simp only [ActorCriticBase.train, ActorCriticBase.metrics_to_score, hro, hc,
      ActorCriticBase.build_batch_preprocessor, hsd, had]
    exact ⟨_, _, rfl, rfl⟩

/-- Witness for C9: at a concrete manager the driver is invoked with the
absent eval dataset. -/
theorem train_passes_eval_dataset_through_witness :
    ∃ (dc : DriverCall) (mc : ActorCriticBase),
      mTrain.train resolver0 td0 none 3 roA = .ok (dc, mc) ∧
      dc.eval_dataset = none :=
  train_passes_eval_dataset_through resolver0 mTrain td0 none 3 roA ro0 _ _
    rfl rfl rfl

/-- C10: the `reader_options` argument of `train` is ignored — a call
differing only in that argument produces the identical driver invocation,
and the driver always receives the manager's stored `reader_options`
field. -/
theorem train_ignores_reader_options_argument (resolver : MetricResolver)
    (m : ActorCriticBase) (td : Dataset) (ed : Option Dataset) (n : Nat)
    (ro1 ro2 : ReaderOptions) (dc : DriverCall) (mc : ActorCriticBase)
    (h : m.train resolver td ed n ro1 = .ok (dc, mc)) :
    m.train resolver td ed n ro2 = .ok (dc, mc) ∧
    dc.reader_options = m.reader_options := by
  constructor
  · exact h
  · cases hro : m._reward_options with
    | none =>
      exfalso
      simp only [ActorCriticBase.train, ActorCriticBase.metrics_to_score, hro] at h
      exact Except.noConfusion h
    | some rw0 =>
      cases hc : m._metrics_to_score with
      | some w =>
        cases hsd : m.state_normalization_data with
        | none =>
          exfalso
          simp only [ActorCriticBase.train, ActorCriticBase.metrics_to_score, hro,
            hc, ActorCriticBase.build_batch_preprocessor, hsd] at h
          exact Except.noConfusion h
        | some sd =>
          cases had : m.action_normalization_data with
          | none =>
            exfalso
            simp only [ActorCriticBase.train, ActorCriticBase.metrics_to_score, hro,
              hc, ActorCriticBase.build_batch_preprocessor, hsd, had] at h
            exact Except.noConfusion h
          | some ad =>
            simp only [ActorCriticBase.train, ActorCriticBase.metrics_to_score, hro,
              hc, ActorCriticBase.build_batch_preprocessor, hsd, had,
              Except.ok.injEq, Prod.mk.injEq] at h
            rw [← h.1]
      | none =>
        cases hsd : m.state_normalization_data with
        | none =>
          exfalso
          simp only [ActorCriticBase.train, ActorCriticBase.metrics_to_score, hro,
            hc, ActorCriticBase.build_batch_preprocessor, hsd] at h
          exact Except.noConfusion h
        | some sd =>
          cases had : m.action_normalization_data with
          | none =>
            exfalso
            simp only [ActorCriticBase.train, ActorCriticBase.metrics_to_score, hro,
              hc, ActorCriticBase.build_batch_preprocessor, hsd, had] at h
            exact Except.noConfusion h
          | some ad =>
            simp only [ActorCriticBase.train, ActorCriticBase.metrics_to_score, hro,
              hc, ActorCriticBase.build_batch_preprocessor, hsd, had,
              Except.ok.injEq, Prod.mk.injEq] at h
            rw [← h.1]

/-- Witness for C10: two calls at a concrete manager differing only in
the reader-options argument yield the same driver call, which carries the
manager's stored reader options. -/
theorem train_ignores_reader_options_witness :
    ∃ (dc : DriverCall) (mc : ActorCriticBase),
      mTrain.train resolver0 td0 none 3 roB = .ok (dc, mc) ∧
      dc.reader_options = mTrain.reader_options :=
  ⟨_, _, train_ignores_reader_options_argument resolver0 mTrain td0 none 3
    roA roB _ _ rfl⟩

end ReAgent
